import Mathlib

/-!
Verification development for the shared-testcontainer broker repository
(`testhelper` package: `SharedElasticsearch` / `SharedMongoDB` brokers, the
`TestDependenciesBuilder`, and the integration-test suite helpers).

The Go code is shallowly embedded: each broker method becomes a pure Lean
function on an explicit state record, external effects (connection probes,
container provisioning outcomes, the entropy source) become explicit
environment parameters, and `int32` reference counts become `Int` (the
counts involved stay far from the 32-bit range in every statement below).
-/

namespace Testhelper

/-- State of a shared broker (`SharedElasticsearch` in `part_002`;
`SharedMongoDB` in `shared_mongo.go` has the identical control flow).
Fields mirror the Go struct:
* `started`      — the `started` flag;
* `clientSet`    — whether `client != nil`;
* `connLive`     — whether a probe (`client.Info()` / `Ping`) on the current
                   handle would succeed (environment fact carried in state);
* `containerSet` — whether `container != nil` (only the testcontainer
                   variant of `startContainer` assigns it);
* `refCount`     — the `int32` reference counter, as `Int`;
* `onceConsumed` — whether `startOnce` (a `sync.Once`) has been used up;
* `provisionCount`     — instrumentation: number of `startContainer` runs;
* `stopContainerCalls` — instrumentation: number of `stopContainer` runs;
* `terminated`   — whether `container.Terminate` has been invoked. -/
structure SharedES where
  started : Bool
  clientSet : Bool
  connLive : Bool
  containerSet : Bool
  refCount : Int
  onceConsumed : Bool
  provisionCount : Nat
  stopContainerCalls : Nat
  terminated : Bool
deriving Repr, DecidableEq

namespace SharedES

/-- The zero-value broker produced by `GetSharedElasticsearch` on first use. -/
def initial : SharedES :=
  { started := false, clientSet := false, connLive := false, containerSet := false
    refCount := 0, onceConsumed := false, provisionCount := 0
    stopContainerCalls := 0, terminated := false }

/-- Outcome of `testConnection`: errors when `client == nil`, otherwise
reports whether the live probe on the current handle succeeds. -/
def testConnectionOk (s : SharedES) : Bool :=
  s.clientSet && s.connLive

end SharedES

/-- Environment of one `Start` call: whether `startContainer` would succeed
if executed now, and whether `USE_EXTERNAL_ES` routes provisioning to
`setupExternalElasticsearch` (which never assigns `s.container`). -/
structure StartEnv where
  provisionOk : Bool
  useExternal : Bool
deriving Repr, DecidableEq

/-- Result of `Start`. The error case records whether the wrapped
`%w` cause is non-nil, i.e. whether `startContainer` actually ran and
failed inside this call (`err` stays `nil` when `startOnce` was already
consumed, so the returned error then carries no underlying cause). -/
inductive StartResult where
  | ok
  | notStarted (hasCause : Bool)
deriving Repr, DecidableEq

namespace SharedES

/-- `s.startOnce.Do(func() { err = s.startContainer(ctx); ... })`:
runs `startContainer` only if the `sync.Once` is unconsumed; a successful
run installs a fresh live client (and, for the testcontainer variant, the
container handle) and sets `started`. Returns the updated state together
with whether the once-body actually ran. -/
def runStartOnce (s : SharedES) (env : StartEnv) : SharedES × Bool :=
  if s.onceConsumed then (s, false)
  else
    let s1 := { s with onceConsumed := true, provisionCount := s.provisionCount + 1 }
    if env.provisionOk then
      ({ s1 with clientSet := true, connLive := true, started := true,
                 containerSet := s1.containerSet || !env.useExternal }, true)
    else (s1, true)

/-- Tail of `Start` after the double-check (lines 77–90 of `part_002`):
run the once-guarded provisioning, then fail if still not started
(wrapping the captured cause, `nil` when the once did not run), else
increment `refCount` and succeed. -/
def finishStart (s : SharedES) (env : StartEnv) : StartResult × SharedES :=
  let p := s.runStartOnce env
  if !p.1.started then (.notStarted p.2, p.1)
  else (.ok, { p.1 with refCount := p.1.refCount + 1 })

/-- The exclusive section of `Start` (lines 63–90): double-check
`started && client != nil`, re-probe; on a live handle just increment
`refCount`; on a dead handle reset `started` and replace `startOnce`
with a fresh `sync.Once`; then run the once-guarded provisioning. -/
def startLocked (s : SharedES) (env : StartEnv) : StartResult × SharedES :=
  if s.started && s.clientSet then
    if s.testConnectionOk then (.ok, { s with refCount := s.refCount + 1 })
    else
      ({ s with started := false, onceConsumed := false }).finishStart env
  else s.finishStart env

/-- `Start` (lines 46–91): lock-free fast path — if `started && client != nil`
and the unlocked probe succeeds, atomically increment `refCount` and return;
otherwise fall through to the exclusive section. -/
def start (s : SharedES) (env : StartEnv) : StartResult × SharedES :=
  if s.started && s.clientSet then
    if s.testConnectionOk then (.ok, { s with refCount := s.refCount + 1 })
    else s.startLocked env
  else s.startLocked env

end SharedES

/-- `shouldReuseContainer` (lines 328–331): parses `TEST_CONTAINER_REUSE`
and then forces the result: `return reuse || true`. -/
def shouldReuseContainer (reuseFlag : Bool) : Bool :=
  reuseFlag || true

namespace SharedES

/-- `stopContainer` (lines 239–251): under the lock, terminate the
container only when one exists and `shouldReuseContainer()` is false. -/
def stopContainer (s : SharedES) (reuseFlag : Bool) : SharedES :=
  let s1 := { s with stopContainerCalls := s.stopContainerCalls + 1 }
  if s1.containerSet && !(shouldReuseContainer reuseFlag) then
    { s1 with terminated := true }
  else s1

/-- `Stop` (lines 93–99): unconditionally decrement `refCount`; when the
decremented value is ≤ 0, call `stopContainer`. -/
def stop (s : SharedES) (reuseFlag : Bool) : SharedES :=
  let s1 := { s with refCount := s.refCount - 1 }
  if s1.refCount ≤ 0 then s1.stopContainer reuseFlag else s1

/-- `K` successive successful-environment `Start` calls. -/
def iterStart (env : StartEnv) : Nat → SharedES → SharedES
  | 0, s => s
  | k + 1, s => iterStart env k (s.start env).2

/-- `K` successive `Stop` calls. -/
def iterStop (reuseFlag : Bool) : Nat → SharedES → SharedES
  | 0, s => s
  | k + 1, s => iterStop reuseFlag k (s.stop reuseFlag)

end SharedES

end Testhelper

/-! ### Interleaved model of concurrent `Start` calls

`N` goroutines each run `SharedElasticsearch.Start` against the shared
broker.  Each goroutine is reduced to the atomic steps visible to the
others: the `RLock`-guarded fast check, the unlocked connection probe,
and the whole `mu.Lock() … mu.Unlock()` exclusive section (its interior
is never observable by another goroutine because every other access to
the mutated fields is itself behind the same `RWMutex`, so it is one
atomic step whose effect is exactly `SharedES.startLocked`).  A scheduler
picks any unfinished goroutine at every step. -/

namespace Testhelper

/-- What a goroutine running `Start` still has to do. -/
inductive ThreadPC where
  | checkFast
  | probeFast
  | locked
  | finished (ok : Bool)
deriving Repr, DecidableEq

/-- One atomic step of a single goroutine running `Start`, given the
shared broker state; `none` when the goroutine has already returned. -/
def threadStep (env : StartEnv) (s : SharedES) : ThreadPC → Option (SharedES × ThreadPC)
  | .checkFast =>
      some (s, if s.started && s.clientSet then .probeFast else .locked)
  | .probeFast =>
      if s.testConnectionOk then
        some ({ s with refCount := s.refCount + 1 }, .finished true)
      else
        some (s, .locked)
  | .locked =>
      let p := s.startLocked env
      some (p.2, .finished (p.1 == .ok))
  | .finished _ => none

/-- A system configuration: the shared broker plus every goroutine's pc. -/
structure Config where
  shared : SharedES
  threads : List ThreadPC
deriving Repr, DecidableEq

/-- Interleaving relation: some goroutine takes its next atomic step. -/
inductive Step (env : StartEnv) : Config → Config → Prop
  | thread {c : Config} (i : Nat) {pc : ThreadPC} {s' : SharedES} {pc' : ThreadPC}
      (hget : c.threads.get? i = some pc)
      (hstep : threadStep env c.shared pc = some (s', pc')) :
      Step env c { shared := s', threads := c.threads.set i pc' }

/-- `N` goroutines all about to call `Start` on the zero-value broker. -/
def initConfig (n : Nat) : Config :=
  { shared := SharedES.initial, threads := List.replicate n .checkFast }

/-- Configurations reachable by some interleaving. -/
def Reach (env : StartEnv) (n : Nat) (c : Config) : Prop :=
  Relation.ReflTransGen (Step env) (initConfig n) c

/-- The broker has completed its single provisioning: all flags set and
exactly one `startContainer` run has happened. -/
def SharedES.readyOnce (s : SharedES) : Prop :=
  s.started = true ∧ s.clientSet = true ∧ s.connLive = true ∧
  s.onceConsumed = true ∧ s.provisionCount = 1

/-- The broker has never provisioned: all flags clear, no
`startContainer` run yet. -/
def SharedES.fresh (s : SharedES) : Prop :=
  s.started = false ∧ s.clientSet = false ∧ s.connLive = false ∧
  s.onceConsumed = false ∧ s.provisionCount = 0

theorem startLocked_of_fresh {s : SharedES} {env : StartEnv}
    (hf : s.fresh) (hp : env.provisionOk = true) :
    (s.startLocked env).1 = .ok ∧ (s.startLocked env).2.readyOnce ∧
      (s.startLocked env).2.refCount = s.refCount + 1 := by
  obtain ⟨h1, h2, h3, h4, h5⟩ := hf
  simp [SharedES.startLocked, SharedES.finishStart, SharedES.runStartOnce,
        SharedES.testConnectionOk, SharedES.readyOnce, h1, h2, h3, h4, h5, hp]

theorem startLocked_of_readyOnce {s : SharedES} {env : StartEnv} (hr : s.readyOnce) :
    s.startLocked env = (.ok, { s with refCount := s.refCount + 1 }) := by
  obtain ⟨h1, h2, h3, h4, h5⟩ := hr
  simp [SharedES.startLocked, SharedES.testConnectionOk, h1, h2, h3]

/-- The single-flight invariant maintained by every interleaving of `N`
concurrent `Start` calls on a never-started broker whose provisioning
succeeds: the broker is either untouched or provisioned exactly once, a
goroutine in the fast probe has witnessed `Ready`, and a goroutine can
only have returned successfully and after the single provisioning run. -/
def Inv (n : Nat) (c : Config) : Prop :=
  (c.shared.fresh ∨ c.shared.readyOnce) ∧
  c.threads.length = n ∧
  ∀ pc ∈ c.threads,
    (pc = .probeFast → c.shared.readyOnce) ∧
    (∀ b, pc = .finished b → b = true ∧ c.shared.readyOnce)

theorem inv_initConfig (n : Nat) : Inv n (initConfig n) := by
  refine ⟨Or.inl ⟨rfl, rfl, rfl, rfl, rfl⟩, by simp [initConfig], ?_⟩
  intro pc hpc
  have hpc' : pc = .checkFast := List.eq_of_mem_replicate hpc
  subst hpc'
  exact ⟨(fun h => nomatch h), (fun b h => nomatch h)⟩

theorem readyOnce_refCountSucc {s : SharedES} (hr : s.readyOnce) :
    ({ s with refCount := s.refCount + 1 } : SharedES).readyOnce := hr

theorem inv_step {env : StartEnv} (hprov : env.provisionOk = true)
    {n : Nat} {c c' : Config} (hc : Inv n c) (hs : Step env c c') : Inv n c' := by
  obtain ⟨hshared, hlen, hthreads⟩ := hc
  cases hs with
  | @thread i pc s' pc' hget hstep =>
    have hmem : pc ∈ c.threads := List.get?_mem hget
    -- the effect of the chosen goroutine's step
    have hkey : (s'.fresh ∨ s'.readyOnce) ∧
        (pc' = .probeFast → s'.readyOnce) ∧
        (∀ b, pc' = .finished b → b = true ∧ s'.readyOnce) ∧
        (s'.readyOnce ∨ (s' = c.shared ∧ c.shared.fresh)) := by
      cases pc with
      | checkFast =>
        simp only [threadStep, Option.some.injEq, Prod.mk.injEq] at hstep
        obtain ⟨hs', hpc'⟩ := hstep
        subst hs'
        rcases hshared with hf | hr
        · have hcond : (c.shared.started && c.shared.clientSet) = false := by
            simp [hf.1]
          rw [hcond] at hpc'
          refine ⟨Or.inl hf, ?_, ?_, Or.inr ⟨rfl, hf⟩⟩
          · intro h; rw [← hpc'] at h; cases h
          · intro b h; rw [← hpc'] at h; cases h
        · refine ⟨Or.inr hr, fun _ => hr, ?_, Or.inl hr⟩
          intro b h; rw [← hpc'] at h
          by_cases hcond : (c.shared.started && c.shared.clientSet) = true <;>
            simp [hcond] at h
      | probeFast =>
        have hr : c.shared.readyOnce := (hthreads _ hmem).1 rfl
        have hlive : c.shared.testConnectionOk = true := by
          simp [SharedES.testConnectionOk, hr.2.1, hr.2.2.1]
        simp only [threadStep, hlive, if_pos, Option.some.injEq, Prod.mk.injEq] at hstep
        obtain ⟨hs', hpc'⟩ := hstep
        have hr' : s'.readyOnce := by rw [← hs']; exact readyOnce_refCountSucc hr
        refine ⟨Or.inr hr', fun _ => hr', ?_, Or.inl hr'⟩
        intro b hb; rw [← hpc'] at hb; cases hb; exact ⟨rfl, hr'⟩
      | locked =>
        simp only [threadStep, Option.some.injEq, Prod.mk.injEq] at hstep
        obtain ⟨hs', hpc'⟩ := hstep
        rcases hshared with hf | hr
        · obtain ⟨hok, hr', _⟩ := startLocked_of_fresh hf hprov
          have hr'' : s'.readyOnce := by rw [← hs']; exact hr'
          refine ⟨Or.inr hr'', fun h => hr'', ?_, Or.inl hr''⟩
          intro b hb; rw [← hpc'] at hb; cases hb
          refine ⟨?_, hr''⟩
          simp [hok]
        · have hres : c.shared.startLocked env =
              (.ok, { c.shared with refCount := c.shared.refCount + 1 }) :=
            startLocked_of_readyOnce hr
          rw [hres] at hs' hpc'
          have hr' : s'.readyOnce := by rw [← hs']; exact readyOnce_refCountSucc hr
          refine ⟨Or.inr hr', fun _ => hr', ?_, Or.inl hr'⟩
          intro b hb; rw [← hpc'] at hb; cases hb; exact ⟨rfl, hr'⟩
      | finished b => simp [threadStep] at hstep
    obtain ⟨hnew, hprobe, hfin, hmono⟩ := hkey
    refine ⟨hnew, by simpa using hlen, ?_⟩
    intro q hq
    rcases List.mem_or_eq_of_mem_set hq with hq' | hq'
    · -- a goroutine that did not move
      rcases hmono with hr' | ⟨heq, hf⟩
      · -- shared state is ready after the step; old pcs stay consistent
        refine ⟨fun _ => hr', ?_⟩
        intro b hb
        exact ⟨((hthreads q hq').2 b hb).1, hr'⟩
      · -- shared state unchanged
        subst heq
        exact hthreads q hq'
    · subst hq'
      exact ⟨hprobe, hfin⟩

theorem inv_of_reach {env : StartEnv} (hprov : env.provisionOk = true)
    {n : Nat} {c : Config} (h : Reach env n c) : Inv n c := by
  induction h with
  | refl => exact inv_initConfig n
  | tail _ hstep ih => exact inv_step hprov ih hstep

/-- A goroutine that has returned from `Start`. -/
def ThreadPC.isDone : ThreadPC → Bool
  | .finished _ => true
  | _ => false

/-- **C1.** For every interleaving of `N` concurrent `Start` calls on the
shared broker starting from its never-started zero value (with a
provisioning environment that succeeds), at most one `startContainer`
run ever occurs; any goroutine that has returned did so successfully
with the broker started and its handle live after the single completed
provisioning run (so every caller blocked until that one run finished);
and once all `N ≥ 1` goroutines have returned, exactly one physical
provisioning attempt has happened and the broker is started with a live
handle. -/
theorem c1_concurrent_start_single_flight {env : StartEnv}
    (hprov : env.provisionOk = true) {n : Nat} {c : Config}
    (hreach : Reach env n c) :
    c.shared.provisionCount ≤ 1 ∧
    (∀ b, ThreadPC.finished b ∈ c.threads →
      b = true ∧ c.shared.started = true ∧ c.shared.connLive = true ∧
        c.shared.provisionCount = 1) ∧
    ((∀ pc ∈ c.threads, pc.isDone = true) → 1 ≤ n →
      c.shared.provisionCount = 1 ∧ c.shared.started = true ∧
        c.shared.connLive = true) := by
  obtain ⟨hshared, hlen, hthreads⟩ := inv_of_reach hprov hreach
  refine ⟨?_, ?_, ?_⟩
  · rcases hshared with hf | hr
    · rw [hf.2.2.2.2]; omega
    · rw [hr.2.2.2.2]
  · intro b hb
    obtain ⟨hb1, hr⟩ := (hthreads _ hb).2 b rfl
    exact ⟨hb1, hr.1, hr.2.2.1, hr.2.2.2.2⟩
  · intro hall hn
    cases hts : c.threads with
    | nil => rw [hts] at hlen; simp at hlen; omega
    | cons q qs =>
      have hq : q ∈ c.threads := by rw [hts]; exact List.mem_cons_self q qs
      have hdone := hall q hq
      cases q with
      | finished b =>
        obtain ⟨_, hr⟩ := (hthreads _ hq).2 b rfl
        exact ⟨hr.2.2.2.2, hr.1, hr.2.2.1⟩
      | checkFast => simp [ThreadPC.isDone] at hdone
      | probeFast => simp [ThreadPC.isDone] at hdone
      | locked => simp [ThreadPC.isDone] at hdone

/-- A concrete interleaving of two concurrent `Start` calls used to
instantiate `c1_concurrent_start_single_flight`: goroutine 0 provisions
through the exclusive section, goroutine 1 joins via the fast path. -/
def c1Cfg1 : Config := ⟨SharedES.initial, [.locked, .checkFast]⟩

/-- Broker state right after the single successful provisioning run. -/
def c1Ready : SharedES :=
  { started := true, clientSet := true, connLive := true, containerSet := true
    refCount := 1, onceConsumed := true, provisionCount := 1
    stopContainerCalls := 0, terminated := false }

def c1Cfg2 : Config := ⟨c1Ready, [.finished true, .checkFast]⟩

def c1Cfg3 : Config := ⟨c1Ready, [.finished true, .probeFast]⟩

def c1Cfg4 : Config := ⟨{ c1Ready with refCount := 2 }, [.finished true, .finished true]⟩

theorem c1_trace : Reach ⟨true, false⟩ 2 c1Cfg4 := by
  have h1 : Step ⟨true, false⟩ (initConfig 2) c1Cfg1 := Step.thread 0 rfl rfl
  have h2 : Step ⟨true, false⟩ c1Cfg1 c1Cfg2 := Step.thread 0 rfl rfl
  have h3 : Step ⟨true, false⟩ c1Cfg2 c1Cfg3 := Step.thread 1 rfl rfl
  have h4 : Step ⟨true, false⟩ c1Cfg3 c1Cfg4 := Step.thread 1 rfl rfl
  exact Relation.ReflTransGen.tail
    (Relation.ReflTransGen.tail
      (Relation.ReflTransGen.tail
        (Relation.ReflTransGen.tail Relation.ReflTransGen.refl h1) h2) h3) h4

/-- Witness for C1 at a complete concrete 2-goroutine interleaving. -/
theorem c1_concurrent_start_single_flight_witness :
    c1Cfg4.shared.provisionCount = 1 ∧ c1Cfg4.shared.started = true ∧
      c1Cfg4.shared.connLive = true :=
  (c1_concurrent_start_single_flight rfl c1_trace).2.2 (by decide) (by decide)

/-! ### Sequential lemmas about `Start`/`Stop` -/

theorem start_of_ready (s : SharedES) (env : StartEnv)
    (h1 : s.started = true) (h2 : s.clientSet = true) (h3 : s.connLive = true) :
    s.start env = (.ok, { s with refCount := s.refCount + 1 }) := by
  simp [SharedES.start, SharedES.testConnectionOk, h1, h2, h3]

theorem iterStart_of_ready (env : StartEnv) (k : Nat) (s : SharedES)
    (h1 : s.started = true) (h2 : s.clientSet = true) (h3 : s.connLive = true) :
    SharedES.iterStart env k s = { s with refCount := s.refCount + k } := by
  induction k generalizing s with
  | zero => simp [SharedES.iterStart]
  | succ k ih =>
    rw [SharedES.iterStart, start_of_ready s env h1 h2 h3]
    dsimp only
    rw [ih { s with refCount := s.refCount + 1 } h1 h2 h3]
    have : s.refCount + 1 + (k : Int) = s.refCount + ((k : Int) + 1) := by ring
    simp [this]

theorem stop_effect (s : SharedES) (reuseFlag : Bool) :
    (s.stop reuseFlag).refCount = s.refCount - 1 ∧
    (s.stop reuseFlag).terminated = s.terminated := by
  by_cases h : s.refCount - 1 ≤ 0 <;>
    simp [SharedES.stop, SharedES.stopContainer, shouldReuseContainer, h]

theorem iterStop_effect (reuseFlag : Bool) (k : Nat) (s : SharedES) :
    (SharedES.iterStop reuseFlag k s).refCount = s.refCount - k ∧
    (SharedES.iterStop reuseFlag k s).terminated = s.terminated := by
  induction k generalizing s with
  | zero => simp [SharedES.iterStop]
  | succ k ih =>
    rw [SharedES.iterStop]
    obtain ⟨hrc, hterm⟩ := ih (s.stop reuseFlag)
    obtain ⟨hrc1, hterm1⟩ := stop_effect s reuseFlag
    constructor
    · rw [hrc, hrc1]; push_cast; ring
    · rw [hterm, hterm1]

/-- **C2.** Starting from any started broker with a live handle and an
unterminated container, `K` successful acquires followed by `K` releases
bring `refCount` back to its pre-acquire value, and the container has
been terminated iff the count reached zero at some release and the reuse
policy (`shouldReuseContainer`, which the source forces to `true`) is
disabled — both sides of the iff are false, because termination requires
`!shouldReuseContainer()` and the source returns `reuse || true`. -/
theorem c2_matched_acquire_release (s : SharedES) (env : StartEnv)
    (reuseFlag : Bool) (k : Nat)
    (h1 : s.started = true) (h2 : s.clientSet = true) (h3 : s.connLive = true)
    (hterm : s.terminated = false) :
    (SharedES.iterStop reuseFlag k (SharedES.iterStart env k s)).refCount
        = s.refCount ∧
    ((SharedES.iterStop reuseFlag k (SharedES.iterStart env k s)).terminated = true ↔
      ((∃ j, j ≤ k ∧
          (SharedES.iterStop reuseFlag j (SharedES.iterStart env k s)).refCount ≤ 0) ∧
        shouldReuseContainer reuseFlag = false)) := by
  rw [iterStart_of_ready env k s h1 h2 h3]
  obtain ⟨hrc, ht⟩ := iterStop_effect reuseFlag k { s with refCount := s.refCount + k }
  refine ⟨by rw [hrc]; push_cast; ring, ?_⟩
  constructor
  · intro h; rw [ht, hterm] at h; cases h
  · intro h
    have : shouldReuseContainer reuseFlag = true := by
      simp [shouldReuseContainer]
    rw [this] at h
    cases h.2

theorem c2_matched_acquire_release_witness :
    (SharedES.iterStop false 3 (SharedES.iterStart ⟨true, false⟩ 3 c1Ready)).refCount
        = c1Ready.refCount ∧
    ((SharedES.iterStop false 3
          (SharedES.iterStart ⟨true, false⟩ 3 c1Ready)).terminated = true ↔
      ((∃ j, j ≤ 3 ∧
          (SharedES.iterStop false j
              (SharedES.iterStart ⟨true, false⟩ 3 c1Ready)).refCount ≤ 0) ∧
        shouldReuseContainer false = false)) :=
  c2_matched_acquire_release c1Ready ⟨true, false⟩ false 3 rfl rfl rfl rfl

/-- **C6.** If the broker is started but the existing handle's liveness
probe fails, the next `Start` re-provisions (one more `startContainer`
run) and, provisioning succeeding, returns success with a fresh live
handle rather than the stale one. -/
theorem c6_probe_failure_reprovisions (s : SharedES) (env : StartEnv)
    (hst : s.started = true) (hcl : s.clientSet = true) (hdead : s.connLive = false)
    (hprov : env.provisionOk = true) :
    (s.start env).1 = .ok ∧
    (s.start env).2.provisionCount = s.provisionCount + 1 ∧
    (s.start env).2.connLive = true ∧
    (s.start env).2.started = true := by
  simp [SharedES.start, SharedES.startLocked, SharedES.finishStart,
        SharedES.runStartOnce, SharedES.testConnectionOk, hst, hcl, hdead, hprov]

/-- Witness for C6: a started broker whose handle has gone dead. -/
def c6Stale : SharedES :=
  { started := true, clientSet := true, connLive := false, containerSet := true
    refCount := 3, onceConsumed := true, provisionCount := 1
    stopContainerCalls := 0, terminated := false }

theorem c6_probe_failure_reprovisions_witness :
    (c6Stale.start ⟨true, false⟩).1 = .ok ∧
    (c6Stale.start ⟨true, false⟩).2.provisionCount = c6Stale.provisionCount + 1 ∧
    (c6Stale.start ⟨true, false⟩).2.connLive = true ∧
    (c6Stale.start ⟨true, false⟩).2.started = true :=
  c6_probe_failure_reprovisions c6Stale ⟨true, false⟩ rfl rfl rfl rfl

/-- The broker after one acquire whose provisioning failed: `startOnce`
is consumed, `started` is still false. -/
def c5FailedOnce : SharedES :=
  (SharedES.initial.start { provisionOk := false, useExternal := false }).2

/-- Counterexample to C5: an acquire that follows an earlier failed
acquire takes the exclusive section while the broker is not started, yet
does **not** execute provisioning (the consumed `sync.Once` skips
`startContainer` even though the provisioning environment would now
succeed), and its error wraps a nil cause. -/
theorem c5_counterexample :
    c5FailedOnce.started = false ∧
    (c5FailedOnce.start { provisionOk := true, useExternal := false }).2.provisionCount
        = c5FailedOnce.provisionCount ∧
    (c5FailedOnce.start { provisionOk := true, useExternal := false }).1
        = .notStarted false := by
  decide

/-- **C5 (amended).** An acquire that takes the exclusive section while
the broker is not started executes provisioning only if `startOnce` is
still unconsumed; in that case a provisioning failure returns an error
carrying the underlying cause and leaves the broker not started. An
acquire after an earlier failed acquire finds `startOnce` consumed: it
executes no provisioning, leaves the broker state unchanged, and fails
with an error carrying no underlying cause. -/
theorem c5_amended_provisioning_on_first_entry (s : SharedES) (env : StartEnv)
    (hns : s.started = false) :
    (s.onceConsumed = false →
      (s.start env).2.provisionCount = s.provisionCount + 1 ∧
      (env.provisionOk = false →
        (s.start env).1 = .notStarted true ∧ (s.start env).2.started = false)) ∧
    (s.onceConsumed = true →
      (s.start env).2 = s ∧ (s.start env).1 = .notStarted false) := by
  constructor
  · intro honce
    by_cases hp : env.provisionOk <;>
      simp [SharedES.start, SharedES.startLocked, SharedES.finishStart,
            SharedES.runStartOnce, SharedES.testConnectionOk, hns, honce, hp]
  · intro honce
    simp [SharedES.start, SharedES.startLocked, SharedES.finishStart,
          SharedES.runStartOnce, SharedES.testConnectionOk, hns, honce]

theorem c5_amended_provisioning_on_first_entry_witness :
    ((SharedES.initial.start ⟨false, false⟩).2.provisionCount
        = SharedES.initial.provisionCount + 1) ∧
    (SharedES.initial.start ⟨false, false⟩).1 = .notStarted true ∧
    (SharedES.initial.start ⟨false, false⟩).2.started = false := by
  have h := (c5_amended_provisioning_on_first_entry SharedES.initial ⟨false, false⟩
      rfl).1 rfl
  exact ⟨h.1, (h.2 rfl).1, (h.2 rfl).2⟩

/-- Counterexample to C7: a `Stop` with no matching prior acquire on the
zero-value broker is not rejected — it decrements `refCount` to `-1` and
invokes `stopContainer` (the teardown path). -/
theorem c7_counterexample :
    (SharedES.initial.stop false).refCount = -1 ∧
    (SharedES.initial.stop false).stopContainerCalls = 1 := by
  decide

/-- **C7 (amended).** `refCount` can go negative: a release with no
matching prior acquire (count at 0) decrements the count to `-1` and
triggers the teardown path (`stopContainer` runs; with the reuse policy
forced on it terminates nothing), with no loud failure. -/
theorem c7_amended_negative_refcount (s : SharedES) (reuseFlag : Bool)
    (h : s.refCount = 0) :
    (s.stop reuseFlag).refCount = -1 ∧
    (s.stop reuseFlag).stopContainerCalls = s.stopContainerCalls + 1 ∧
    (s.stop reuseFlag).terminated = s.terminated := by
  simp [SharedES.stop, SharedES.stopContainer, shouldReuseContainer, h]

theorem c7_amended_negative_refcount_witness :
    (SharedES.initial.stop true).refCount = -1 ∧
    (SharedES.initial.stop true).stopContainerCalls
        = SharedES.initial.stopContainerCalls + 1 ∧
    (SharedES.initial.stop true).terminated = SharedES.initial.terminated :=
  c7_amended_negative_refcount SharedES.initial true rfl

/-! ### `TestDependenciesBuilder` (`test_builder.go`)

`Build` fans out one goroutine per requested dependency kind and waits
for all of them.  The fan-out is sequentialised here in the textual
order of the code blocks (postgres, mongo, elasticsearch); the claims
settled against it are order-insensitive (set membership in the error
and release lists).  Object identity (Go pointers) is modelled by a
heap: a list of builder records addressed by index, where the success
path of `Build` allocates the fresh copy it returns. -/

/-- The dependency kinds the builder can assemble. -/
inductive Kind where
  | postgres
  | mongo
  | es
deriving DecidableEq, Repr

/-- Contents of one `TestDependenciesBuilder` record: the request flags,
the build-once guard, which connection fields are populated, and the
kinds whose `Stop` closures sit in `cleanupFuncs` (in append order). -/
structure BuilderSt where
  needsPostgres : Bool
  needsMongo : Bool
  needsElasticsearch : Bool
  built : Bool
  connPostgres : Bool
  connMongo : Bool
  connES : Bool
  cleanupKinds : List Kind
deriving DecidableEq, Repr

/-- `NewTestDependenciesBuilder`: zero request flags, empty cleanup list. -/
def newTestDependenciesBuilder : BuilderSt :=
  { needsPostgres := false, needsMongo := false, needsElasticsearch := false
    built := false, connPostgres := false, connMongo := false, connES := false
    cleanupKinds := [] }

/-- Outcome of each shared broker's `Start` during this `Build` call. -/
structure BuildEnv where
  postgresOk : Bool
  mongoOk : Bool
  esOk : Bool
deriving DecidableEq, Repr

def BuildEnv.ok (env : BuildEnv) : Kind → Bool
  | .postgres => env.postgresOk
  | .mongo => env.mongoOk
  | .es => env.esOk

/-- The kinds whose setup goroutines `Build` launches, in the textual
order of the three `if b.needsX` blocks. -/
def BuilderSt.requested (b : BuilderSt) : List Kind :=
  (if b.needsPostgres then [Kind.postgres] else []) ++
  (if b.needsMongo then [Kind.mongo] else []) ++
  (if b.needsElasticsearch then [Kind.es] else [])

/-- Heap-free effect of one `Build` call (lines 73–214 of
`test_builder.go`) on the receiver builder `b`:
* build-once guard: if `b.built`, do nothing and return the receiver;
* otherwise call `Start` on every requested kind's shared broker
  (`startCalls`), record each failure (wrapped, naming the kind) in the
  `errors` slice and each success in the connection fields and
  `cleanupFuncs`;
* if any error: run `cleanup()` — release the registered brokers in
  reverse append order (`releaseCalls`) — and return the aggregate
  error listing every failure;
* else mark the receiver built and allocate the fresh copy that Go
  returns, carrying the same connections (the Go literal does not copy
  the `needsX` request flags). -/
structure BuildRes where
  builder : BuilderSt
  bundle : Option BuilderSt
  result : Except (List Kind) Unit
  startCalls : List Kind
  releaseCalls : List Kind
deriving Repr

def BuilderSt.buildCore (b : BuilderSt) (env : BuildEnv) : BuildRes :=
  if b.built then ⟨b, none, .ok (), [], []⟩
  else
    let req := b.requested
    let fails := req.filter (fun k => !(env.ok k))
    let succs := req.filter (fun k => env.ok k)
    let b1 : BuilderSt :=
      { b with
        connPostgres := b.connPostgres || (b.needsPostgres && env.postgresOk)
        connMongo := b.connMongo || (b.needsMongo && env.mongoOk)
        connES := b.connES || (b.needsElasticsearch && env.esOk)
        cleanupKinds := b.cleanupKinds ++ succs }
    if fails.isEmpty then
      let bundle : BuilderSt :=
        { newTestDependenciesBuilder with
          built := true, connPostgres := b1.connPostgres
          connMongo := b1.connMongo, connES := b1.connES
          cleanupKinds := b1.cleanupKinds }
      ⟨{ b1 with built := true }, some bundle, .ok (), req, []⟩
    else
      ⟨b1, none, .error fails, req, b1.cleanupKinds.reverse⟩

/-- One `Build` call with Go pointer identity made explicit: builders
live on a heap (a list addressed by index) and the success path of a
first `Build` allocates the returned bundle as a new heap object, while
the build-once guard returns the receiver's own address. -/
def buildOn (heap : List BuilderSt) (i : Nat) (env : BuildEnv) :
    List BuilderSt × Except (List Kind) Nat × List Kind :=
  match heap[i]? with
  | none => (heap, .error [], [])
  | some b =>
    let r := b.buildCore env
    match r.bundle with
    | some bundle =>
        ((heap.set i r.builder) ++ [bundle], .ok (heap.set i r.builder).length,
          r.startCalls)
    | none =>
        match r.result with
        | .ok _ => (heap, .ok i, r.startCalls)
        | .error fs => (heap.set i r.builder, .error fs, r.startCalls)

/-- One-element heap holding a builder configured via
`WithElasticsearch()`, and an all-succeeding environment. -/
def c3Heap : List BuilderSt :=
  [{ newTestDependenciesBuilder with needsElasticsearch := true }]

def c3EnvOk : BuildEnv := ⟨true, true, true⟩

/-- Counterexample to C3: the first `Build` returns the freshly
allocated bundle (heap address 1), but a second `Build` on the
original, now already-built builder (heap address 0) returns the
original builder itself — a different instance than the first call's
result (and, correctly, provisions nothing). -/
theorem c3_counterexample :
    (buildOn c3Heap 0 c3EnvOk).2.1 = .ok 1 ∧
    (buildOn (buildOn c3Heap 0 c3EnvOk).1 0 c3EnvOk).2.1 = .ok 0 ∧
    (1 : Nat) ≠ 0 ∧
    (buildOn (buildOn c3Heap 0 c3EnvOk).1 0 c3EnvOk).2.2 = [] :=
  ⟨rfl, rfl, by decide, rfl⟩

/-- **C3 (amended).** Calling `Build` again on an already-built builder
is a no-op: it provisions nothing, leaves the heap unchanged and
returns the receiver's own address. Hence a second `Build` on the
Bundle returned by the first call returns that same Bundle, but a
second `Build` on the original builder returns the original builder —
not the instance the first call returned, though it carries the same
connections. -/
theorem c3_amended_build_once_guard (heap : List BuilderSt) (i : Nat)
    (b : BuilderSt) (env : BuildEnv)
    (hget : heap[i]? = some b) (hbuilt : b.built = true) :
    buildOn heap i env = (heap, .ok i, []) := by
  unfold buildOn
  rw [hget]
  simp [BuilderSt.buildCore, hbuilt]

theorem c3_amended_build_once_guard_witness :
    buildOn (buildOn c3Heap 0 c3EnvOk).1 1 c3EnvOk
      = ((buildOn c3Heap 0 c3EnvOk).1, .ok 1, []) :=
  c3_amended_build_once_guard (buildOn c3Heap 0 c3EnvOk).1 1
    { newTestDependenciesBuilder with
      built := true, connES := true, cleanupKinds := [Kind.es] }
    c3EnvOk (by decide) rfl

/-- **C4.** If a `Build` request (on a not-yet-built builder with no
previously registered cleanups) has at least one requested kind whose
broker fails to start, then `Build` returns an aggregate error whose
list contains exactly every failing requested kind — not only the first
— and its rollback releases exactly the requested kinds that did start
successfully. -/
theorem c4_aggregate_error_and_rollback (b : BuilderSt) (env : BuildEnv)
    (hbuilt : b.built = false) (hclean : b.cleanupKinds = [])
    (hfail : ∃ k ∈ b.requested, env.ok k = false) :
    (∃ fs, (b.buildCore env).result = .error fs ∧
      ∀ k, k ∈ fs ↔ (k ∈ b.requested ∧ env.ok k = false)) ∧
    (∀ k, k ∈ (b.buildCore env).releaseCalls ↔
      (k ∈ b.requested ∧ env.ok k = true)) := by
  obtain ⟨k0, hk0, hk0f⟩ := hfail
  have hcond : ¬(∀ a ∈ b.requested, env.ok a = true) := by
    intro hall
    rw [hall k0 hk0] at hk0f
    cases hk0f
  constructor
  · refine ⟨b.requested.filter (fun k => !(env.ok k)), ?_, ?_⟩
    · simp [BuilderSt.buildCore, hbuilt, hcond]
    · intro k
      simp [List.mem_filter]
  · intro k
    have hrel : (b.buildCore env).releaseCalls =
        (b.cleanupKinds ++ b.requested.filter (fun k => env.ok k)).reverse := by
      simp [BuilderSt.buildCore, hbuilt, hcond]
    rw [hrel, hclean]
    simp [List.mem_filter]

/-- Witness builder for C4: requests mongo and elasticsearch, in an
environment where mongo fails to start and elasticsearch starts. -/
def c4Builder : BuilderSt :=
  { newTestDependenciesBuilder with needsMongo := true, needsElasticsearch := true }

def c4Env : BuildEnv := ⟨true, false, true⟩

theorem c4_aggregate_error_and_rollback_witness :
    (∃ fs, (c4Builder.buildCore c4Env).result = .error fs ∧
      ∀ k, k ∈ fs ↔ (k ∈ c4Builder.requested ∧ c4Env.ok k = false)) ∧
    (∀ k, k ∈ (c4Builder.buildCore c4Env).releaseCalls ↔
      (k ∈ c4Builder.requested ∧ c4Env.ok k = true)) :=
  c4_aggregate_error_and_rollback c4Builder c4Env rfl rfl
    ⟨Kind.mongo, by decide, rfl⟩

/-! ### `GenerateTenantID` (`integration_test_base.go` lines 331–338) -/

/-- One lowercase hexadecimal digit (`encoding/hex` alphabet). -/
def hexDigit (n : Nat) : Char :=
  if n < 10 then Char.ofNat (48 + n) else Char.ofNat (97 + (n - 10))

/-- `hex.EncodeToString`: two lowercase digits per byte, high nibble
first. -/
def hexEncode : List Nat → String
  | [] => ""
  | byte :: rest =>
      String.mk [hexDigit (byte / 16), hexDigit (byte % 16)] ++ hexEncode rest

/-- `GenerateTenantID`: read 8 bytes from `crypto/rand` (`entropy` is
`none` when `rand.Read` fails, otherwise the bytes read); on failure
fall back to the `time.Now().UnixNano()` timestamp `t`. -/
def GenerateTenantID (entropy : Option (List Nat)) (t : Int) : String :=
  match entropy with
  | none => "test_" ++ toString t
  | some bytes => "test_" ++ hexEncode bytes

theorem hexEncode_length (bs : List Nat) :
    (hexEncode bs).length = 2 * bs.length := by
  induction bs with
  | nil => rfl
  | cons b rest ih =>
    simp [hexEncode, String.length_append, ih]
    omega

/-- **C8.** `GenerateTenantID` is total over the entropy outcome: a
successful read of the 8 random bytes yields the token `test_` plus
their 16-character hex encoding, and a failed read yields the token
`test_` plus the decimal timestamp instead of aborting; in both cases a
non-empty token is returned. -/
theorem c8_generate_tenant_id_total (entropy : Option (List Nat)) (t : Int)
    (hlen : ∀ bs, entropy = some bs → bs.length = 8) :
    5 ≤ (GenerateTenantID entropy t).length ∧
    (∀ bs, entropy = some bs →
      GenerateTenantID entropy t = "test_" ++ hexEncode bs ∧
        (GenerateTenantID entropy t).length = 21) ∧
    (entropy = none → GenerateTenantID entropy t = "test_" ++ toString t) := by
  have hpre : ("test_" : String).length = 5 := rfl
  cases entropy with
  | none =>
    refine ⟨?_, ?_, fun _ => rfl⟩
    · simp [GenerateTenantID, String.length_append, hpre]
    · intro bs h; cases h
  | some bytes =>
    have hb : bytes.length = 8 := hlen bytes rfl
    refine ⟨?_, ?_, ?_⟩
    · simp [GenerateTenantID, String.length_append, hpre]
    · intro bs h
      cases h
      refine ⟨rfl, ?_⟩
      simp [GenerateTenantID, String.length_append, hexEncode_length, hb, hpre]
    · intro h; cases h

theorem c8_generate_tenant_id_total_witness :
    5 ≤ (GenerateTenantID (some [0, 1, 171, 255, 16, 32, 64, 128]) 0).length ∧
    (∀ bs, (some [0, 1, 171, 255, 16, 32, 64, 128] : Option (List Nat)) = some bs →
      GenerateTenantID (some [0, 1, 171, 255, 16, 32, 64, 128]) 0
          = "test_" ++ hexEncode bs ∧
        (GenerateTenantID (some [0, 1, 171, 255, 16, 32, 64, 128]) 0).length = 21) ∧
    ((some [0, 1, 171, 255, 16, 32, 64, 128] : Option (List Nat)) = none →
      GenerateTenantID (some [0, 1, 171, 255, 16, 32, 64, 128]) 0
          = "test_" ++ toString (0 : Int)) :=
  c8_generate_tenant_id_total (some [0, 1, 171, 255, 16, 32, 64, 128]) 0
    (fun bs h => by cases h; rfl)

/-! ### `WaitForIndexing` and `RefreshIndices` -/

/-- An Elasticsearch request issued by a suite helper. -/
inductive EsCall where
  | refresh (index : String)
deriving DecidableEq, Repr

/-- `SharedElasticsearch.RefreshIndices` (`part_002` lines 299–319):
errors when no client is available, otherwise issues one forced refresh
request for `_all` indices. -/
def SharedES.refreshIndices (s : SharedES) : Except String (List EsCall) :=
  if s.clientSet then .ok [.refresh "_all"]
  else .error "elasticsearch client not available"

/-- `IntegrationTestSuite.WaitForIndexing` as written in
`test/testhelper/integration_test_base.go` (lines 208–217): the body
begins with a bare `return`, so the `RefreshIndices` call and the 50ms
sleep below it are dead code — the call issues no ES request at all. -/
def waitForIndexingBase (_s : SharedES) : List EsCall :=
  []

/-- `IntegrationTestSuite.WaitForIndexing` as written in the
builder-integrated copy of the suite (`part_003` lines 378–386): calls
`RefreshIndices` on the shared broker (then sleeps 50ms). -/
def waitForIndexingBuilder (s : SharedES) : Except String (List EsCall) :=
  s.refreshIndices

/-- **C9.** The claim says every `WaitForIndexing` call performs a
forced refresh of all indices via `RefreshIndices`. The copy of the
suite in `part_003` does (one `_all` refresh request when a client is
available), but the copy in `test/testhelper/integration_test_base.go`
performs none: its body starts with a bare `return`, making the refresh
code below unreachable — it does exactly the "doing nothing" the claim
excludes. -/
theorem c9_wait_for_indexing_divergence (s : SharedES)
    (hcl : s.clientSet = true) :
    waitForIndexingBase s = [] ∧
    waitForIndexingBuilder s = .ok [.refresh "_all"] := by
  refine ⟨rfl, ?_⟩
  simp [waitForIndexingBuilder, SharedES.refreshIndices, hcl]

theorem c9_wait_for_indexing_divergence_witness :
    waitForIndexingBase c1Ready = [] ∧
    waitForIndexingBuilder c1Ready = .ok [.refresh "_all"] :=
  c9_wait_for_indexing_divergence c1Ready rfl

/-! ### `SearchResult.TotalHits` (`integration_test_base.go` lines 255–277) -/

/-- JSON values as decoded by `encoding/json` into `interface{}`.
Numbers all decode to `float64`; they are modelled as `Int` because
`TotalHits` performs no arithmetic on them, only type assertions and
the final `int(...)` conversion. -/
inductive Json where
  | null
  | bool (b : Bool)
  | num (n : Int)
  | str (s : String)
  | arr (elems : List Json)
  | obj (fields : List (String × Json))

/-- Go map indexing on a decoded JSON object. -/
def lookupField : List (String × Json) → String → Option Json
  | [], _ => none
  | (k, v) :: rest, key => if k = key then some v else lookupField rest key

/-- The type assertion `x.(map[string]interface{})`. -/
def Json.asObj : Json → Option (List (String × Json))
  | .obj fs => some fs
  | _ => none

/-- The type assertion `x.(float64)`. -/
def Json.asNum : Json → Option Int
  | .num n => some n
  | _ => none

/-- `SearchResult.TotalHits`: assert `hits` is an object; inside it,
if `total` is an object (Elasticsearch 7.x+), return its numeric
`value` (0 when absent or non-numeric); if `total` is instead a bare
number (Elasticsearch 6.x), return it; otherwise 0. -/
def TotalHits (response : List (String × Json)) : Int :=
  match (lookupField response "hits").bind Json.asObj with
  | none => 0
  | some hits =>
    match (lookupField hits "total").bind Json.asObj with
    | some total =>
      match (lookupField total "value").bind Json.asNum with
      | some v => v
      | none => 0
    | none =>
      match (lookupField hits "total").bind Json.asNum with
      | some t => t
      | none => 0

/-- **C10.** `TotalHits` is total on every decoded response (it is a
function into `Int`, never a panic or error), returns `hits.total.value`
on the 7.x+ shape, `hits.total` on the 6.x shape, and `0` on every
other shape. -/
theorem c10_total_hits_shape_dispatch (response : List (String × Json)) :
    (∀ hits total v,
      lookupField response "hits" = some (.obj hits) →
      lookupField hits "total" = some (.obj total) →
      lookupField total "value" = some (.num v) →
      TotalHits response = v) ∧
    (∀ hits t,
      lookupField response "hits" = some (.obj hits) →
      lookupField hits "total" = some (.num t) →
      TotalHits response = t) ∧
    ((¬ ∃ hits total v,
        lookupField response "hits" = some (.obj hits) ∧
        lookupField hits "total" = some (.obj total) ∧
        lookupField total "value" = some (.num v)) →
      (¬ ∃ hits t,
        lookupField response "hits" = some (.obj hits) ∧
        lookupField hits "total" = some (.num t)) →
      TotalHits response = 0) := by
  refine ⟨?_, ?_, ?_⟩
  · intro hits total v h1 h2 h3
    simp [TotalHits, h1, h2, h3, Json.asObj, Json.asNum]
  · intro hits t h1 h2
    simp [TotalHits, h1, h2, Json.asObj, Json.asNum]
  · intro h7 h6
    cases h1 : lookupField response "hits" with
    | none => simp [TotalHits, h1]
    | some j =>
      cases j with
      | obj hits =>
        cases h2 : lookupField hits "total" with
        | none => simp [TotalHits, h1, h2, Json.asObj]
        | some jt =>
          cases jt with
          | obj total =>
            cases h3 : lookupField total "value" with
            | none => simp [TotalHits, h1, h2, h3, Json.asObj, Json.asNum]
            | some jv =>
              cases jv with
              | num v => exact absurd ⟨hits, total, v, h1, h2, h3⟩ h7
              | null => simp [TotalHits, h1, h2, h3, Json.asObj, Json.asNum]
              | bool b => simp [TotalHits, h1, h2, h3, Json.asObj, Json.asNum]
              | str s => simp [TotalHits, h1, h2, h3, Json.asObj, Json.asNum]
              | arr es => simp [TotalHits, h1, h2, h3, Json.asObj, Json.asNum]
              | obj fs => simp [TotalHits, h1, h2, h3, Json.asObj, Json.asNum]
          | num t => exact absurd ⟨hits, t, h1, h2⟩ h6
          | null => simp [TotalHits, h1, h2, Json.asObj, Json.asNum]
          | bool b => simp [TotalHits, h1, h2, Json.asObj, Json.asNum]
          | str s => simp [TotalHits, h1, h2, Json.asObj, Json.asNum]
          | arr es => simp [TotalHits, h1, h2, Json.asObj, Json.asNum]
      | null => simp [TotalHits, h1, Json.asObj]
      | bool b => simp [TotalHits, h1, Json.asObj]
      | num n => simp [TotalHits, h1, Json.asObj]
      | str st => simp [TotalHits, h1, Json.asObj]
      | arr es => simp [TotalHits, h1, Json.asObj]

/-- A concrete Elasticsearch 7.x+ search response. -/
def c10Response : List (String × Json) :=
  [("took", .num 3),
   ("hits", .obj
     [("total", .obj [("value", .num 5), ("relation", .str "eq")]),
      ("hits", .arr [])])]

theorem c10_total_hits_shape_dispatch_witness : TotalHits c10Response = 5 :=
  (c10_total_hits_shape_dispatch c10Response).1
    [("total", .obj [("value", .num 5), ("relation", .str "eq")]),
     ("hits", .arr [])]
    [("value", .num 5), ("relation", .str "eq")] 5 rfl rfl rfl

end Testhelper

section Scratch

open Testhelper Testhelper.SharedES

example :
    (SharedES.initial.start { provisionOk := true, useExternal := false }).1 = .ok := by
  decide

example :
    ((SharedES.initial.start { provisionOk := false, useExternal := false }).2.start
        { provisionOk := true, useExternal := false }).1 = .notStarted false := by
  decide

example :
    ((SharedES.initial.start { provisionOk := false, useExternal := false }).2.start
        { provisionOk := true, useExternal := false }).2.provisionCount = 1 := by
  decide

example : (SharedES.initial.stop false).refCount = -1 := by decide

end Scratch
